import Mathlib

/-!
Verification of the silver-layer ETL job (`glue_jobs/silver-layer-etl.py`).

The job's dataframes are modelled shallowly: a `Row` is an association list
from column names to nullable values, a `DF` carries a schema (the column
list, in schema order) and a list of rows.  Spark column expressions are
null-propagating (`Option`-valued); `when`/`otherwise` picks the otherwise
branch unless the condition is exactly non-null `true`; a value whose
runtime shape does not match the column type expected by an operator
behaves as null.  Dates are day numbers (days since 1970-01-01) computed
by the standard civil-calendar algorithm, which is the semantics of
Spark's `to_date`, `datediff`, `year`, `month` and `quarter`.  A branch
body that can raise an analysis error (an unresolvable column, an
incompatible union) is `Except`-valued or guarded, and the job-level
`try/except` that converts a branch failure into an absent dataset is the
map to `Option`.
-/

namespace SilverETL

/-! ## Calendar arithmetic (Spark date semantics) -/

/-- Day number (days since 1970-01-01) of a civil date, by the standard
era-based algorithm. -/
def daysFromCivil (y m d : Int) : Int :=
  let y2 : Int := if m ≤ 2 then y - 1 else y
  let era : Int := Int.fdiv y2 400
  let yoe : Int := y2 - era * 400
  let mp : Int := if 2 < m then m - 3 else m + 9
  let doy : Int := Int.fdiv (153 * mp + 2) 5 + d - 1
  let doe : Int := yoe * 365 + Int.fdiv yoe 4 - Int.fdiv yoe 100 + doy
  era * 146097 + doe - 719468

/-- Inverse of `daysFromCivil`: (year, month, day) of a day number. -/
def civilFromDays (z0 : Int) : Int × Int × Int :=
  let z : Int := z0 + 719468
  let era : Int := Int.fdiv z 146097
  let doe : Int := z - era * 146097
  let yoe : Int :=
    Int.fdiv (doe - Int.fdiv doe 1460 + Int.fdiv doe 36524 - Int.fdiv doe 146096) 365
  let y : Int := yoe + era * 400
  let doy : Int := doe - (365 * yoe + Int.fdiv yoe 4 - Int.fdiv yoe 100)
  let mp : Int := Int.fdiv (5 * doy + 2) 153
  let d : Int := doy - Int.fdiv (153 * mp + 2) 5 + 1
  let m : Int := if mp < 10 then mp + 3 else mp - 9
  (if m ≤ 2 then y + 1 else y, m, d)

def isLeapYear (y : Int) : Bool :=
  (y % 4 == 0 && y % 100 != 0) || (y % 400 == 0)

def daysInMonth (y m : Int) : Int :=
  if m == 2 then (if isLeapYear y then 29 else 28)
  else if m == 4 || m == 6 || m == 9 || m == 11 then 30
  else 31

/-- Digits of a decimal string, or `none` when empty or non-numeric. -/
def digitsToNat (cs : List Char) : Option Nat :=
  if cs ≠ [] ∧ cs.all Char.isDigit then
    some (cs.foldl (fun a c => a * 10 + (c.toNat - 48)) 0)
  else none

/-- Spark `to_date(_, 'yyyyMMdd')`: parse an 8-digit date code, `none` on
any malformed or impossible date. -/
def parseDate8 (s : String) : Option Int :=
  let cs := s.data
  if cs.length = 8 then
    match digitsToNat (cs.take 4), digitsToNat ((cs.drop 4).take 2),
        digitsToNat (cs.drop 6) with
    | some y, some m, some d =>
        if 1 ≤ m ∧ m ≤ 12 ∧ 1 ≤ d ∧ (d : Int) ≤ daysInMonth (y : Int) (m : Int) then
          some (daysFromCivil (y : Int) (m : Int) (d : Int))
        else none
    | _, _, _ => none
  else none

/-- Spark cast of a decimal string to double, as an exact rational
(built with `mkRat`, so concrete parses evaluate definitionally). -/
def parseRat (s : String) : Option ℚ :=
  let cs := s.data
  let signed : Int × List Char :=
    match cs with
    | '-' :: rest => (-1, rest)
    | '+' :: rest => (1, rest)
    | _ => (1, cs)
  let intPart := signed.2.takeWhile (fun c => c ≠ '.')
  match signed.2.dropWhile (fun c => c ≠ '.') with
  | [] => (digitsToNat intPart).map (fun n => mkRat (signed.1 * n) 1)
  | '.' :: frac =>
      match digitsToNat intPart, digitsToNat frac with
      | some n, some f =>
          some (mkRat (signed.1 * ((n : Int) * (10 : Int) ^ frac.length + (f : Int)))
            ((10 : Nat) ^ frac.length))
      | _, _ => none
  | _ => none

/-- Spark cast of an integral string to int. -/
def parseInt (s : String) : Option Int :=
  match s.data with
  | '-' :: rest => (digitsToNat rest).map (fun n => -(n : Int))
  | cs => (digitsToNat cs).map (fun n => (n : Int))

/-! ## Values, rows, dataframes -/

/-- A runtime cell value. -/
inductive Val where
  | str (s : String)
  | int (n : Int)
  | num (q : ℚ)
  | date (d : Int)
  | bool (b : Bool)
deriving DecidableEq

/-- A row: association list from column name to nullable value; a
prepended binding shadows earlier ones (the semantics of `withColumn`
replacing an existing column). -/
abbrev Row := List (String × Option Val)

structure DF where
  schema : List String
  rows : List Row
deriving DecidableEq

def getVal (r : Row) (c : String) : Option Val :=
  match r.find? (fun p => p.1 == c) with
  | some p => p.2
  | none => none

def setVal (r : Row) (c : String) (v : Option Val) : Row := (c, v) :: r

/-- `df.withColumn(c, e)`: add or replace column `c`. -/
def withColumn (df : DF) (c : String) (f : Row → Option Val) : DF :=
  ⟨if df.schema.contains c then df.schema else df.schema ++ [c],
   df.rows.map (fun r => setVal r c (f r))⟩

/-! ## Spark expression semantics -/

def toDate8 (v : Option Val) : Option Val :=
  match v with
  | some (.str s) => (parseDate8 s).map .date
  | some (.date d) => some (.date d)
  | _ => none

def yearVal (v : Option Val) : Option Val :=
  match v with
  | some (.date z) => some (.int (civilFromDays z).1)
  | _ => none

def monthVal (v : Option Val) : Option Val :=
  match v with
  | some (.date z) => some (.int (civilFromDays z).2.1)
  | _ => none

def quarterVal (v : Option Val) : Option Val :=
  match v with
  | some (.date z) => some (.int (Int.fdiv ((civilFromDays z).2.1 - 1) 3 + 1))
  | _ => none

def dateDiff (a b : Option Val) : Option Val :=
  match a, b with
  | some (.date x), some (.date y) => some (.int (x - y))
  | _, _ => none

def addIntLit (v : Option Val) (k : Int) : Option Val :=
  match v with
  | some (.int n) => some (.int (n + k))
  | _ => none

def castDouble (v : Option Val) : Option Val :=
  match v with
  | some (.str s) => (parseRat s).map .num
  | some (.num q) => some (.num q)
  | some (.int n) => some (.num (mkRat n 1))
  | _ => none

def castInt (v : Option Val) : Option Val :=
  match v with
  | some (.str s) => (parseInt s).map .int
  | some (.int n) => some (.int n)
  | _ => none

/-- `col > q` on a double column: null when the value is null or not a
double. -/
def gtNum (v : Option Val) (q : ℚ) : Option Bool :=
  match v with
  | some (.num x) => some (decide (q < x))
  | _ => none

/-- `col > k` on an int column. -/
def gtInt (v : Option Val) (k : Int) : Option Bool :=
  match v with
  | some (.int n) => some (decide (k < n))
  | _ => none

/-- Three-valued `AND`. -/
def sparkAnd (a b : Option Bool) : Option Bool :=
  match a, b with
  | some false, _ => some false
  | _, some false => some false
  | some true, some true => some true
  | _, _ => none

/-- `when(c, t).otherwise(e)`: `t` only when the condition is non-null
`true`. -/
def sparkWhen (c : Option Bool) (t e : Option Val) : Option Val :=
  if c = some true then t else e

def isNotNull (v : Option Val) : Option Bool := some v.isSome

/-- Double / int division (only reached under the job's positivity
guard). -/
def divNumInt (a b : Option Val) : Option Val :=
  match a, b with
  | some (.num x), some (.int n) => some (.num (x / (n : ℚ)))
  | _, _ => none

/-! ## Beneficiary branch: chronic-condition count and SCD Type 2 -/

/-- The fixed whitelist of 11 chronic-condition indicator columns. -/
def chronic_cols : List String :=
  ["sp_alzhdmta", "sp_chf", "sp_chrnkidn", "sp_cncr", "sp_copd",
   "sp_depressn", "sp_diabetes", "sp_ischmcht", "sp_osteoprs",
   "sp_ra_oa", "sp_strketia"]

/-- One `when(col == '1', 1).otherwise(0)` term. -/
def chronicTerm (r : Row) (c : String) : Int :=
  if getVal r c = some (.str "1") then 1 else 0

/-- `chronic_condition_count`: the job builds the sum expression over the
chronic columns present in the schema, or the literal 0 when none is. -/
def chronicConditionCount (schema : List String) (r : Row) : Int :=
  match chronic_cols.filter (fun c => schema.contains c) with
  | [] => 0
  | c :: cs => cs.foldl (fun acc c2 => acc + chronicTerm r c2) (chronicTerm r c)

/-- A beneficiary snapshot row, with the provenance columns the SCD step
reads (`desynpuf_id`, `bronze_load_timestamp`, `bronze_load_date`). -/
structure Snap where
  id : String
  loadTs : Nat
  loadDate : Int
deriving DecidableEq

/-- One SCD2 output version. -/
structure Version where
  id : String
  effStart : Int
  effEnd : Int
  isCurrent : Bool
deriving DecidableEq

/-- `to_date(lit('9999-12-31'))`, the far-future sentinel. -/
def sentinelDate : Int := daysFromCivil 9999 12 31

/-- `lead(bronze_load_date) over (...)` at the head of the remaining
window partition. -/
def leadDate (rest : List Snap) : Option Int := rest.head?.map Snap.loadDate

/-- The three `withColumn` steps of the SCD2 block, applied along the
ordered partition: start = own load date, raw end = lead of load date,
`is_current` = raw end is null, end = raw end coalesced to the sentinel. -/
def buildVersions : List Snap → List Version
  | [] => []
  | s :: rest =>
      { id := s.id, effStart := s.loadDate,
        effEnd := (leadDate rest).getD sentinelDate,
        isCurrent := (leadDate rest).isNone } :: buildVersions rest

/-- `Window.partitionBy('desynpuf_id').orderBy('bronze_load_timestamp')`:
the partition rows in ascending load-timestamp order. -/
def orderByLoadTs (l : List Snap) : List Snap :=
  l.insertionSort (fun a b => a.loadTs ≤ b.loadTs)

/-- The SCD2 versions emitted for the partition of one beneficiary id. -/
def beneficiaryScdFor (snaps : List Snap) (bid : String) : List Version :=
  buildVersions (orderByLoadTs (snaps.filter (fun s => s.id == bid)))

/-- The whole SCD2 output: every partition's versions. -/
def beneficiaryScd (snaps : List Snap) : List Version :=
  ((snaps.map Snap.id).dedup).flatMap (beneficiaryScdFor snaps)

/-! ## Claims cleansing -/

/-- Per-row body of `clean_claims_data`: parse dates, tag the claim type,
derive duration and time dimensions. -/
def cleanClaimsRow (ct : String) (r : Row) : Row :=
  let r1 := setVal r "clm_from_dt" (toDate8 (getVal r "clm_from_dt"))
  let r2 := setVal r1 "clm_thru_dt" (toDate8 (getVal r1 "clm_thru_dt"))
  let r3 := setVal r2 "claim_type" (some (.str ct))
  let r4 := setVal r3 "claim_duration_days"
      (addIntLit (dateDiff (getVal r3 "clm_thru_dt") (getVal r3 "clm_from_dt")) 1)
  let r5 := setVal r4 "claim_year" (yearVal (getVal r4 "clm_from_dt"))
  let r6 := setVal r5 "claim_month" (monthVal (getVal r5 "clm_from_dt"))
  setVal r6 "claim_quarter" (quarterVal (getVal r6 "clm_from_dt"))

def addCols (schema : List String) (cs : List String) : List String :=
  cs.foldl (fun s c => if s.contains c then s else s ++ [c]) schema

/-- `clean_claims_data`: `None` stays `None`; referencing the date
columns when absent raises and the `except` returns `None`; the payment
column is presence-checked and defaults to literal 0.0. -/
def cleanClaimsData (df0 : Option DF) (ct : String) : Option DF :=
  match df0 with
  | none => none
  | some df =>
      if df.schema.contains "clm_from_dt" && df.schema.contains "clm_thru_dt" then
        let base : DF :=
          ⟨addCols df.schema
              ["claim_type", "claim_duration_days", "claim_year", "claim_month",
               "claim_quarter"],
            df.rows.map (cleanClaimsRow ct)⟩
        some (if df.schema.contains "clm_pmt_amt" then
                withColumn base "payment_amount"
                  (fun r => castDouble (getVal r "clm_pmt_amt"))
              else
                withColumn base "payment_amount" (fun _ => some (.num 0)))
      else none

/-! ## Claims unifier -/

def common_cols : List String :=
  ["desynpuf_id", "clm_id", "clm_from_dt", "clm_thru_dt",
   "claim_type", "claim_duration_days", "claim_year", "claim_month",
   "payment_amount", "bronze_load_timestamp"]

def projRow (cols : List String) (r : Row) : Row :=
  cols.map (fun c => (c, getVal r c))

/-- `df.select(*[c for c in common_cols if c in df.columns])`. -/
def projectCommon (df : DF) : DF :=
  let cols := common_cols.filter (fun c => df.schema.contains c)
  ⟨cols, df.rows.map (projRow cols)⟩

/-- Positional `DataFrame.union` (rows are kept name-tagged here; the
unifier guard below accepts it only for equal-width schemas). -/
def unionDF (a b : DF) : DF := ⟨a.schema, a.rows ++ b.rows⟩

/-- The `is_high_cost` expression:
`when(col('payment_amount') > 10000, True).otherwise(False)`. -/
def highCostExpr (r : Row) : Option Val :=
  sparkWhen (gtNum (getVal r "payment_amount") 10000)
    (some (.bool true)) (some (.bool false))

/-- The tail of the unified-claims block, on the collected projections:
`None` with a warning when none is available, otherwise union them and
add `is_high_cost`.  A width-incompatible union or an unresolvable
`payment_amount` column raises and the `except` returns `None`. -/
def unifyStage (dfs : List DF) : Option DF :=
  match dfs with
  | [] => none
  | d :: rest =>
      if rest.all (fun x => x.schema.length == d.schema.length) &&
          d.schema.contains "payment_amount" then
        some (withColumn (rest.foldl unionDF d) "is_high_cost" highCostExpr)
      else none

/-- The unified-claims block: collect the available projections in type
order inpatient, outpatient, carrier, then unify. -/
def claimsUnified (i o c : Option DF) : Option DF :=
  unifyStage
    ((match i with | some d => [projectCommon d] | none => []) ++
     (match o with | some d => [projectCommon d] | none => []) ++
     (match c with | some d => [projectCommon d] | none => []))

/-- The rows a source contributes to the union: its projection onto the
common columns, or nothing when the source is absent. -/
def projRowsOpt (d : Option DF) : List Row :=
  match d with
  | some df => (projectCommon df).rows
  | none => []

/-- An available source carries every common column (the realistic
post-cleansing shape). -/
def schemaOkOpt (d : Option DF) : Bool :=
  match d with
  | some df => common_cols.all (fun col => df.schema.contains col)
  | none => true

/-! ## Prescription branch -/

/-- The source columns the prescription transform references; the first
one missing from the schema is the analysis error the branch raises. -/
def prescSourceCols : List String :=
  ["srvc_dt", "qty_dspnsd_num", "days_suply_num", "tot_rx_cst_amt",
   "ptnt_pay_amt"]

/-- Per-row body of the prescription transform. -/
def prescRow (r : Row) : Row :=
  let r1 := setVal r "srvc_dt" (toDate8 (getVal r "srvc_dt"))
  let r2 := setVal r1 "prescription_year" (yearVal (getVal r1 "srvc_dt"))
  let r3 := setVal r2 "prescription_month" (monthVal (getVal r2 "srvc_dt"))
  let r4 := setVal r3 "qty_dispensed" (castInt (getVal r3 "qty_dspnsd_num"))
  let r5 := setVal r4 "days_supply" (castInt (getVal r4 "days_suply_num"))
  let r6 := setVal r5 "total_cost" (castDouble (getVal r5 "tot_rx_cst_amt"))
  let r7 := setVal r6 "patient_pay"
      (sparkWhen (isNotNull (getVal r6 "ptnt_pay_amt"))
        (castDouble (getVal r6 "ptnt_pay_amt")) (some (.num 0)))
  setVal r7 "cost_per_day"
    (sparkWhen (sparkAnd (gtInt (getVal r7 "days_supply") 0)
        (gtNum (getVal r7 "total_cost") 0))
      (divNumInt (getVal r7 "total_cost") (getVal r7 "days_supply"))
      (some (.num 0)))

def prescNewCols : List String :=
  ["prescription_year", "prescription_month", "qty_dispensed",
   "days_supply", "total_cost", "patient_pay", "cost_per_day"]

/-- The prescription transform; an unresolvable referenced column is the
analysis error. -/
def prescriptionClean (df : DF) : Except String DF :=
  match prescSourceCols.find? (fun c => !df.schema.contains c) with
  | some c => .error c
  | none => .ok ⟨addCols df.schema prescNewCols, df.rows.map prescRow⟩

/-- The prescription branch boundary: absent source or a caught error
yields an absent output. -/
def prescriptionBranch (df0 : Option DF) : Option DF :=
  df0.bind (fun df => (prescriptionClean df).toOption)

/-! ## Diagnosis unpivot -/

structure Assign where
  beneId : Option Val
  claimId : Option Val
  fromDt : Option Val
  code : Val
  seq : Nat
deriving DecidableEq

def strStartsWith (s p : String) : Bool := p.data.isPrefixOf s.data

/-- The per-slot select-and-filter: keep rows whose slot value is
non-null and non-empty, emitting the value as `diagnosis_code` with the
slot's 1-based discovery index as `diagnosis_sequence`. -/
def emitDiag (c : String) (k : Nat) (r : Row) : Option Assign :=
  match getVal r c with
  | some v =>
      if v = .str "" then none
      else some ⟨getVal r "desynpuf_id", getVal r "clm_id",
        getVal r "clm_from_dt", v, k⟩
  | none => none

/-- The `enumerate(diagnosis_cols, start=1)` loop followed by the union
of the per-slot frames, slot-major. -/
def unpivotFrom (rows : List Row) : Nat → List String → List Assign
  | _, [] => []
  | k, c :: cs => rows.filterMap (emitDiag c k) ++ unpivotFrom rows (k + 1) cs

/-- The diagnosis-normalization block: discover the slot columns in
schema order; with no slot columns nothing is produced. -/
def diagnosisNormalized (df : DF) : Option (List Assign) :=
  match df.schema.filter (fun c => strStartsWith c "icd9_dgns_cd_") with
  | [] => none
  | dcs => some (unpivotFrom df.rows 1 dcs)

/-! ## The whole run: independent branches -/

structure SilverInputs where
  beneficiary : Option (List Snap)
  inpatient : Option DF
  outpatient : Option DF
  carrier : Option DF
  prescription : Option DF

structure SilverOutputs where
  beneficiaryOut : Option (List Version)
  claimsOut : Option DF
  prescriptionsOut : Option DF
  diagnosesOut : Option (List Assign)
deriving DecidableEq

/-- The job body after loading: each branch is computed from its own
inputs, failures confined to the branch boundary. -/
def runSilver (inp : SilverInputs) : SilverOutputs :=
  let inClean := cleanClaimsData inp.inpatient "inpatient"
  let outClean := cleanClaimsData inp.outpatient "outpatient"
  let carClean := cleanClaimsData inp.carrier "carrier"
  { beneficiaryOut := inp.beneficiary.map beneficiaryScd
    claimsOut := claimsUnified inClean outClean carClean
    prescriptionsOut := prescriptionBranch inp.prescription
    diagnosesOut := inClean.bind diagnosisNormalized }

/-! ## Concrete test data -/

def c6Row : Row :=
  [("clm_from_dt", some (.str "20080101")), ("clm_thru_dt", some (.str "20080105"))]

def c8Row : Row :=
  [("srvc_dt", some (.str "20080101")), ("qty_dspnsd_num", some (.str "10")),
   ("days_suply_num", some (.str "0")), ("tot_rx_cst_amt", some (.str "300")),
   ("ptnt_pay_amt", none)]

def c9Schema : List String := ["desynpuf_id", "sp_chf", "sp_diabetes", "sp_cncr"]

def c9Row : Row :=
  [("desynpuf_id", some (.str "B2")), ("sp_chf", some (.str "1")),
   ("sp_diabetes", some (.str "1")), ("sp_cncr", some (.str "2"))]

def snap1 : Snap := ⟨"B1", 1, 10⟩

def snap2 : Snap := ⟨"B1", 2, 20⟩

def snap3 : Snap := ⟨"B1", 3, 30⟩

def diagTestDF : DF :=
  ⟨["desynpuf_id", "clm_id", "clm_from_dt", "icd9_dgns_cd_1", "icd9_dgns_cd_2"],
   [[("desynpuf_id", some (.str "P1")), ("clm_id", some (.str "C7")),
     ("clm_from_dt", none), ("icd9_dgns_cd_1", some (.str "250.00")),
     ("icd9_dgns_cd_2", some (.str ""))]]⟩

def uniInRow : Row :=
  [("desynpuf_id", some (.str "P1")), ("clm_id", some (.str "CI")),
   ("clm_from_dt", none), ("clm_thru_dt", none),
   ("claim_type", some (.str "inpatient")), ("claim_duration_days", none),
   ("claim_year", none), ("claim_month", none),
   ("payment_amount", some (.num 15000)), ("bronze_load_timestamp", none),
   ("extra_inpatient_col", some (.str "x"))]

def uniInDF : DF :=
  ⟨["desynpuf_id", "clm_id", "clm_from_dt", "clm_thru_dt", "claim_type",
    "claim_duration_days", "claim_year", "claim_month", "payment_amount",
    "bronze_load_timestamp", "extra_inpatient_col"], [uniInRow]⟩

def uniOutRow : Row :=
  [("desynpuf_id", some (.str "P2")), ("clm_id", some (.str "CO")),
   ("clm_from_dt", none), ("clm_thru_dt", none),
   ("claim_type", some (.str "outpatient")), ("claim_duration_days", none),
   ("claim_year", none), ("claim_month", none),
   ("payment_amount", some (.num 500)), ("bronze_load_timestamp", none)]

def uniOutDF : DF :=
  ⟨["desynpuf_id", "clm_id", "clm_from_dt", "clm_thru_dt", "claim_type",
    "claim_duration_days", "claim_year", "claim_month", "payment_amount",
    "bronze_load_timestamp"], [uniOutRow]⟩

def uniCarRow : Row :=
  [("desynpuf_id", some (.str "P3")), ("clm_id", some (.str "CC")),
   ("clm_from_dt", none), ("clm_thru_dt", none),
   ("claim_type", some (.str "carrier")), ("claim_duration_days", none),
   ("claim_year", none), ("claim_month", none),
   ("payment_amount", none), ("bronze_load_timestamp", none)]

def uniCarDF : DF :=
  ⟨["desynpuf_id", "clm_id", "clm_from_dt", "clm_thru_dt", "claim_type",
    "claim_duration_days", "claim_year", "claim_month", "payment_amount",
    "bronze_load_timestamp"], [uniCarRow]⟩

def c7SampleRow : Row :=
  setVal (projRow common_cols uniInRow) "is_high_cost"
    (highCostExpr (projRow common_cols uniInRow))

def c10SampleRow : Row :=
  setVal (projRow common_cols uniCarRow) "is_high_cost"
    (highCostExpr (projRow common_cols uniCarRow))

def rawInDF : DF :=
  ⟨["desynpuf_id", "clm_id", "clm_from_dt", "clm_thru_dt", "clm_pmt_amt",
    "bronze_load_timestamp"],
   [[("desynpuf_id", some (.str "P1")), ("clm_id", some (.str "CI")),
     ("clm_from_dt", some (.str "20080101")),
     ("clm_thru_dt", some (.str "20080105")),
     ("clm_pmt_amt", some (.str "15000")),
     ("bronze_load_timestamp", some (.str "t1"))]]⟩

def rawOutDF : DF :=
  ⟨["desynpuf_id", "clm_id", "clm_from_dt", "clm_thru_dt", "clm_pmt_amt",
    "bronze_load_timestamp"],
   [[("desynpuf_id", some (.str "P2")), ("clm_id", some (.str "CO")),
     ("clm_from_dt", some (.str "20080201")),
     ("clm_thru_dt", some (.str "20080201")),
     ("clm_pmt_amt", some (.str "500")),
     ("bronze_load_timestamp", some (.str "t1"))]]⟩

def c5Inputs : SilverInputs :=
  ⟨none, some rawInDF, some rawOutDF, none, none⟩

def prescFullDF : DF :=
  ⟨["srvc_dt", "qty_dspnsd_num", "days_suply_num", "tot_rx_cst_amt",
    "ptnt_pay_amt"],
   [[("srvc_dt", some (.str "20080101")), ("qty_dspnsd_num", some (.str "30")),
     ("days_suply_num", some (.str "30")),
     ("tot_rx_cst_amt", some (.str "120.50")), ("ptnt_pay_amt", none)]]⟩

def prescMissingDF : DF :=
  ⟨["srvc_dt", "qty_dspnsd_num", "days_suply_num", "tot_rx_cst_amt"],
   [[("srvc_dt", some (.str "20080101")), ("qty_dspnsd_num", some (.str "30")),
     ("days_suply_num", some (.str "30")),
     ("tot_rx_cst_amt", some (.str "120.50"))]]⟩

/-! ## Helper lemmas: column lookup through row transforms -/

theorem getVal_setVal_self (r : Row) (c : String) (v : Option Val) :
    getVal (setVal r c v) c = v := by
  simp [getVal, setVal, List.find?]

theorem getVal_setVal_ne (r : Row) (c c2 : String) (v : Option Val)
    (h : (c == c2) = false) :
    getVal (setVal r c v) c2 = getVal r c2 := by
  simp [getVal, setVal, List.find?, h]

theorem cleanClaimsRow_from (ct : String) (r : Row) :
    getVal (cleanClaimsRow ct r) "clm_from_dt" = toDate8 (getVal r "clm_from_dt") := by
  simp [cleanClaimsRow, getVal, setVal, List.find?]

theorem cleanClaimsRow_thru (ct : String) (r : Row) :
    getVal (cleanClaimsRow ct r) "clm_thru_dt" = toDate8 (getVal r "clm_thru_dt") := by
  simp [cleanClaimsRow, getVal, setVal, List.find?]

theorem cleanClaimsRow_duration (ct : String) (r : Row) :
    getVal (cleanClaimsRow ct r) "claim_duration_days" =
      addIntLit (dateDiff (toDate8 (getVal r "clm_thru_dt"))
        (toDate8 (getVal r "clm_from_dt"))) 1 := by
  simp [cleanClaimsRow, getVal, setVal, List.find?]

theorem prescRow_cost_per_day (r : Row) :
    getVal (prescRow r) "cost_per_day" =
      sparkWhen (sparkAnd (gtInt (castInt (getVal r "days_suply_num")) 0)
          (gtNum (castDouble (getVal r "tot_rx_cst_amt")) 0))
        (divNumInt (castDouble (getVal r "tot_rx_cst_amt"))
          (castInt (getVal r "days_suply_num")))
        (some (.num 0)) := by
  simp [prescRow, getVal, setVal, List.find?]

theorem prescRow_patient_pay (r : Row) :
    getVal (prescRow r) "patient_pay" =
      sparkWhen (isNotNull (getVal r "ptnt_pay_amt"))
        (castDouble (getVal r "ptnt_pay_amt")) (some (.num 0)) := by
  simp [prescRow, getVal, setVal, List.find?]

theorem sparkAnd_eq_some_true (a b : Option Bool) :
    sparkAnd a b = some true ↔ a = some true ∧ b = some true := by
  rcases a with _ | (_ | _) <;> rcases b with _ | (_ | _) <;> simp [sparkAnd]

theorem gtInt_eq_some_true (v : Option Val) (k : Int) :
    gtInt v k = some true ↔ ∃ n : Int, v = some (.int n) ∧ k < n := by
  rcases v with _ | w
  · simp [gtInt]
  · cases w <;> simp [gtInt]

theorem gtNum_eq_some_true (v : Option Val) (k : ℚ) :
    gtNum v k = some true ↔ ∃ q : ℚ, v = some (.num q) ∧ k < q := by
  rcases v with _ | w
  · simp [gtNum]
  · cases w <;> simp [gtNum]

theorem chronic_foldl (r : Row) :
    ∀ (l : List String) (n : Int),
      l.foldl (fun acc c => acc + chronicTerm r c) n =
        n + (((l.filter (fun c => decide (getVal r c = some (.str "1")))).length : Int)) := by
  intro l
  induction l with
  | nil => intro n; simp
  | cons c cs ih =>
      intro n
      simp only [List.foldl_cons, List.filter_cons]
      by_cases h : getVal r c = some (.str "1")
      · rw [ih, decide_eq_true h]
        simp [chronicTerm, if_pos h]
        omega
      · rw [ih, decide_eq_false h]
        simp [chronicTerm, if_neg h]

/-! ## Claim theorems -/

/-- Claim C6: for every cleansed claim with parsed from and thru dates,
`claim_duration_days` = (thru − from in days) + 1, inclusive of both
endpoints; the value is 0 or negative (uncorrected) whenever thru < from;
and a claim with from-date 2008-01-01 and thru-date 2008-01-05 has
`claim_duration_days` = 5. -/
theorem claim_duration_inclusive :
    (∀ (ct : String) (r : Row) (f t : Int),
      getVal (cleanClaimsRow ct r) "clm_from_dt" = some (.date f) →
      getVal (cleanClaimsRow ct r) "clm_thru_dt" = some (.date t) →
      getVal (cleanClaimsRow ct r) "claim_duration_days" = some (.int (t - f + 1)) ∧
        (t < f → t - f + 1 ≤ 0)) ∧
    getVal (cleanClaimsRow "inpatient" c6Row) "claim_duration_days" =
      some (.int 5) := by
  constructor
  · intro ct r f t hf ht
    rw [cleanClaimsRow_from] at hf
    rw [cleanClaimsRow_thru] at ht
    constructor
    · rw [cleanClaimsRow_duration, hf, ht]
      simp [dateDiff, addIntLit]
    · omega
  · decide

/-- Witness for C6: the general statement applied at the concrete
2008-01-01 / 2008-01-05 claim row. -/
theorem claim_duration_inclusive_witness :
    getVal (cleanClaimsRow "inpatient" c6Row) "claim_duration_days" =
      some (.int (daysFromCivil 2008 1 5 - daysFromCivil 2008 1 1 + 1)) ∧
    (daysFromCivil 2008 1 5 < daysFromCivil 2008 1 1 →
      daysFromCivil 2008 1 5 - daysFromCivil 2008 1 1 + 1 ≤ 0) :=
  claim_duration_inclusive.1 "inpatient" c6Row (daysFromCivil 2008 1 1)
    (daysFromCivil 2008 1 5) (by decide) (by decide)

/-- Claim C8: `cost_per_day` = total_cost / days_supply exactly when
days_supply > 0 and total_cost > 0, and 0.0 otherwise, so the division is
always guarded; the concrete prescription with total_cost = 300 and
days_supply = 0 yields `cost_per_day` = 0.0. -/
theorem cost_per_day_guarded :
    (∀ (r : Row) (n : Int) (q : ℚ),
      castInt (getVal r "days_suply_num") = some (.int n) →
      castDouble (getVal r "tot_rx_cst_amt") = some (.num q) →
      0 < n → 0 < q →
      getVal (prescRow r) "cost_per_day" = some (.num (q / (n : ℚ)))) ∧
    (∀ r : Row,
      sparkAnd (gtInt (castInt (getVal r "days_suply_num")) 0)
          (gtNum (castDouble (getVal r "tot_rx_cst_amt")) 0) ≠ some true →
      getVal (prescRow r) "cost_per_day" = some (.num 0)) ∧
    (∀ r : Row,
      sparkAnd (gtInt (castInt (getVal r "days_suply_num")) 0)
          (gtNum (castDouble (getVal r "tot_rx_cst_amt")) 0) = some true ↔
        ∃ (n : Int) (q : ℚ),
          castInt (getVal r "days_suply_num") = some (.int n) ∧
          castDouble (getVal r "tot_rx_cst_amt") = some (.num q) ∧
          0 < n ∧ 0 < q) ∧
    getVal (prescRow c8Row) "cost_per_day" = some (.num 0) := by
  refine ⟨?_, ?_, ?_, by decide⟩
  · intro r n q hn hq hn0 hq0
    rw [prescRow_cost_per_day, hn, hq]
    have e1 : decide (0 < n) = true := decide_eq_true hn0
    have e2 : decide ((0 : ℚ) < q) = true := decide_eq_true hq0
    simp [gtInt, gtNum, e1, e2, sparkAnd, sparkWhen, divNumInt]
  · intro r h
    rw [prescRow_cost_per_day]
    simp only [sparkWhen, if_neg h]
  · intro r
    rw [sparkAnd_eq_some_true, gtInt_eq_some_true, gtNum_eq_some_true]
    constructor
    · rintro ⟨⟨n, hn, hn0⟩, ⟨q, hq, hq0⟩⟩
      exact ⟨n, q, hn, hq, hn0, hq0⟩
    · rintro ⟨n, q, hn, hq, hn0, hq0⟩
      exact ⟨⟨n, hn, hn0⟩, ⟨q, hq, hq0⟩⟩

/-- Witness for C8: the guarded-division theorem applied at a concrete
prescription row with days_supply = 0 (guard not satisfied). -/
theorem cost_per_day_guarded_witness :
    getVal (prescRow c8Row) "cost_per_day" = some (.num 0) :=
  cost_per_day_guarded.2.1 c8Row (by decide)

/-- Claim C9: `chronic_condition_count` equals the number of indicators,
among the fixed whitelist of 11 chronic-condition flags, whose value
equals the "present" marker '1'; indicators absent from the source schema
contribute 0 and never fail the run (0 when all 11 are absent); the
concrete beneficiary with two "present" indicators counts 2. -/
theorem chronic_condition_count_correct :
    (∀ (schema : List String) (r : Row),
      chronicConditionCount schema r =
        (((chronic_cols.filter (fun c => schema.contains c)).filter
          (fun c => decide (getVal r c = some (.str "1")))).length : Int)) ∧
    (∀ (schema : List String) (r : Row),
      (∀ c ∈ chronic_cols, schema.contains c = false) →
      chronicConditionCount schema r = 0) ∧
    chronicConditionCount c9Schema c9Row = 2 := by
  have main : ∀ (schema : List String) (r : Row),
      chronicConditionCount schema r =
        (((chronic_cols.filter (fun c => schema.contains c)).filter
          (fun c => decide (getVal r c = some (.str "1")))).length : Int) := by
    intro schema r
    cases h : chronic_cols.filter (fun c => schema.contains c) with
    | nil =>
        have e : chronicConditionCount schema r = 0 := by
          unfold chronicConditionCount
          rw [h]
        rw [e]
        simp
    | cons c cs =>
        have e : chronicConditionCount schema r =
            cs.foldl (fun acc c2 => acc + chronicTerm r c2) (chronicTerm r c) := by
          unfold chronicConditionCount
          rw [h]
        rw [e, chronic_foldl]
        simp only [List.filter_cons]
        by_cases hc : getVal r c = some (.str "1")
        · rw [decide_eq_true hc]
          simp [chronicTerm, if_pos hc]
          omega
        · rw [decide_eq_false hc]
          simp [chronicTerm, if_neg hc]
  refine ⟨main, ?_, by decide⟩
  intro schema r hall
  rw [main]
  have : chronic_cols.filter (fun c => schema.contains c) = [] := by
    rw [List.filter_eq_nil_iff]
    intro c hc
    simpa using hall c hc
  rw [this]
  simp

/-- Witness for C9: the absent-schema part applied at a schema containing
none of the 11 indicator columns. -/
theorem chronic_condition_count_correct_witness :
    chronicConditionCount ["desynpuf_id"] c9Row = 0 :=
  chronic_condition_count_correct.2.1 ["desynpuf_id"] c9Row (by decide)

theorem buildVersions_length (l : List Snap) :
    (buildVersions l).length = l.length := by
  induction l with
  | nil => rfl
  | cons s rest ih => simp [buildVersions, ih]

theorem buildVersions_getElem (l : List Snap) (i : Nat) :
    (buildVersions l)[i]? =
      (l[i]?).map (fun s =>
        ({ id := s.id, effStart := s.loadDate,
           effEnd := ((l[i + 1]?).map Snap.loadDate).getD sentinelDate,
           isCurrent := (l[i + 1]?).isNone } : Version)) := by
  induction l generalizing i with
  | nil => simp [buildVersions]
  | cons s rest ih =>
      cases i with
      | zero =>
          cases rest with
          | nil => simp [buildVersions, leadDate]
          | cons t ts => simp [buildVersions, leadDate]
      | succ j => simpa [buildVersions] using ih j

/-- Claim C1: for every beneficiary id, with that beneficiary's snapshots
ordered by load timestamp ascending, the SCD2 step emits exactly one
version per snapshot, with `effective_start_date` = the snapshot's load
date, `effective_end_date` = the next snapshot's load date (the sentinel
9999-12-31 for the last), and `is_current` true iff the snapshot is last
in order; consequently for three snapshots with distinct ascending load
dates d1 < d2 < d3 the versions are (d1,d2,false), (d2,d3,false),
(d3,sentinel,true), they pairwise never overlap, and exactly one is
current. -/
theorem beneficiary_scd_versions :
    (∀ (snaps : List Snap) (bid : String),
      (beneficiaryScdFor snaps bid).length =
        (snaps.filter (fun s => s.id == bid)).length ∧
      ∀ i : Nat,
        (beneficiaryScdFor snaps bid)[i]? =
          ((orderByLoadTs (snaps.filter (fun s => s.id == bid)))[i]?).map
            (fun s =>
              ({ id := s.id, effStart := s.loadDate,
                 effEnd :=
                   (((orderByLoadTs (snaps.filter (fun t => t.id == bid)))[i + 1]?).map
                     Snap.loadDate).getD sentinelDate,
                 isCurrent :=
                   ((orderByLoadTs (snaps.filter (fun t => t.id == bid)))[i + 1]?).isNone } :
                Version))) ∧
    (∀ (s1 s2 s3 : Snap) (bid : String),
      s1.id = bid → s2.id = bid → s3.id = bid →
      s1.loadTs < s2.loadTs → s2.loadTs < s3.loadTs →
      s1.loadDate < s2.loadDate → s2.loadDate < s3.loadDate →
      beneficiaryScdFor [s1, s2, s3] bid =
        [{ id := bid, effStart := s1.loadDate, effEnd := s2.loadDate,
           isCurrent := false },
         { id := bid, effStart := s2.loadDate, effEnd := s3.loadDate,
           isCurrent := false },
         { id := bid, effStart := s3.loadDate, effEnd := sentinelDate,
           isCurrent := true }] ∧
      List.Pairwise
        (fun v w : Version => ¬(v.effStart < w.effEnd ∧ w.effStart < v.effEnd))
        (beneficiaryScdFor [s1, s2, s3] bid) ∧
      ((beneficiaryScdFor [s1, s2, s3] bid).filter (fun v => v.isCurrent)).length
        = 1) := by
  constructor
  · intro snaps bid
    constructor
    · rw [beneficiaryScdFor, buildVersions_length, orderByLoadTs,
        List.length_insertionSort]
    · intro i
      exact buildVersions_getElem _ i
  · intro s1 s2 s3 bid h1 h2 h3 ht12 ht23 hd12 hd23
    have hf : [s1, s2, s3].filter (fun s => s.id == bid) = [s1, s2, s3] := by
      simp [List.filter, h1, h2, h3]
    have hs : orderByLoadTs [s1, s2, s3] = [s1, s2, s3] := by
      apply List.Sorted.insertionSort_eq
      simp [List.sorted_cons]
      omega
    have hv : beneficiaryScdFor [s1, s2, s3] bid =
        [{ id := bid, effStart := s1.loadDate, effEnd := s2.loadDate,
           isCurrent := false },
         { id := bid, effStart := s2.loadDate, effEnd := s3.loadDate,
           isCurrent := false },
         { id := bid, effStart := s3.loadDate, effEnd := sentinelDate,
           isCurrent := true }] := by
      unfold beneficiaryScdFor
      rw [hf, hs]
      simp [buildVersions, leadDate, h1, h2, h3]
    refine ⟨hv, ?_, ?_⟩
    · rw [hv]
      simp [List.pairwise_cons]
      omega
    · rw [hv]
      simp [List.filter]

/-- Witness for C1: the three-snapshot part applied at concrete snapshots
with load timestamps 1 < 2 < 3 and load dates 10 < 20 < 30. -/
theorem beneficiary_scd_versions_witness :
    beneficiaryScdFor [snap1, snap2, snap3] "B1" =
      [{ id := "B1", effStart := 10, effEnd := 20, isCurrent := false },
       { id := "B1", effStart := 20, effEnd := 30, isCurrent := false },
       { id := "B1", effStart := 30, effEnd := sentinelDate, isCurrent := true }] ∧
    List.Pairwise
      (fun v w : Version => ¬(v.effStart < w.effEnd ∧ w.effStart < v.effEnd))
      (beneficiaryScdFor [snap1, snap2, snap3] "B1") ∧
    ((beneficiaryScdFor [snap1, snap2, snap3] "B1").filter
        (fun v => v.isCurrent)).length = 1 :=
  beneficiary_scd_versions.2 snap1 snap2 snap3 "B1" rfl rfl rfl (by decide)
    (by decide) (by decide) (by decide)

theorem emitDiag_seq (c : String) (k : Nat) (r : Row) (a : Assign)
    (h : emitDiag c k r = some a) : a.seq = k := by
  unfold emitDiag at h
  cases hv : getVal r c with
  | none =>
      simp only [hv] at h
      exact Option.noConfusion h
  | some v =>
      simp only [hv] at h
      by_cases he : v = .str ""
      · rw [if_pos he] at h; simp at h
      · rw [if_neg he] at h
        cases h
        rfl

theorem unpivotFrom_seq_bounds (rows : List Row) :
    ∀ (cs : List String) (k0 : Nat) (a : Assign),
      a ∈ unpivotFrom rows k0 cs → k0 ≤ a.seq ∧ a.seq < k0 + cs.length := by
  intro cs
  induction cs with
  | nil => intro k0 a ha; simp [unpivotFrom] at ha
  | cons c cs2 ih =>
      intro k0 a ha
      rw [unpivotFrom] at ha
      rcases List.mem_append.1 ha with h | h
      · rcases List.mem_filterMap.1 h with ⟨r, _, he⟩
        have hs := emitDiag_seq c k0 r a he
        simp [hs]
      · have hb := ih (k0 + 1) a h
        simp only [List.length_cons]
        omega

theorem filterMap_emit_filter_self (rows : List Row) (c : String) (k : Nat) :
    (rows.filterMap (emitDiag c k)).filter (fun a => a.seq == k) =
      rows.filterMap (emitDiag c k) := by
  apply List.filter_eq_self.mpr
  intro a ha
  rcases List.mem_filterMap.1 ha with ⟨r, _, he⟩
  simp [emitDiag_seq c k r a he]

theorem filterMap_emit_filter_ne (rows : List Row) (c : String) (k j : Nat)
    (h : j ≠ k) :
    (rows.filterMap (emitDiag c k)).filter (fun a => a.seq == j) = [] := by
  apply List.filter_eq_nil_iff.mpr
  intro a ha
  rcases List.mem_filterMap.1 ha with ⟨r, _, he⟩
  simp [emitDiag_seq c k r a he]
  omega

theorem unpivotFrom_filter (rows : List Row) :
    ∀ (cs : List String) (k0 i : Nat) (h : i < cs.length),
      (unpivotFrom rows k0 cs).filter (fun a => a.seq == k0 + i) =
        rows.filterMap (emitDiag (cs.get ⟨i, h⟩) (k0 + i)) := by
  intro cs
  induction cs with
  | nil => intro k0 i h; exact absurd h (by simp)
  | cons c cs2 ih =>
      intro k0 i h
      rw [unpivotFrom, List.filter_append]
      cases i with
      | zero =>
          rw [Nat.add_zero, filterMap_emit_filter_self]
          have hnil :
              (unpivotFrom rows (k0 + 1) cs2).filter (fun a => a.seq == k0) = [] := by
            apply List.filter_eq_nil_iff.mpr
            intro a ha
            have hb := unpivotFrom_seq_bounds rows cs2 (k0 + 1) a ha
            simp
            omega
          rw [hnil, List.append_nil]
          rfl
      | succ j =>
          rw [filterMap_emit_filter_ne rows c k0 (k0 + (j + 1)) (by omega),
            List.nil_append]
          have e : k0 + (j + 1) = (k0 + 1) + j := by omega
          rw [e]
          exact ih (k0 + 1) j (Nat.lt_of_succ_lt_succ h)

/-- Claim C2: the Diagnosis Unpivoter emits exactly one assignment per
(claim row, diagnosis slot) pair whose slot value is non-null and
non-empty — the assignments carrying sequence k are exactly the
qualifying rows of the k-th slot column in schema-discovery order, with
`diagnosis_code` the slot value — every emitted sequence is between 1
and the slot count; the concrete inpatient row with slot 1 = "250.00"
and slot 2 empty yields exactly one assignment with sequence 1; with no
diagnosis-slot columns nothing is produced and no error is raised. -/
theorem diagnosis_unpivot_correct :
    (∀ df : DF,
      df.schema.filter (fun c => strStartsWith c "icd9_dgns_cd_") = [] →
      diagnosisNormalized df = none) ∧
    (∀ (df : DF) (out : List Assign),
      diagnosisNormalized df = some out →
      (∀ a ∈ out, 1 ≤ a.seq ∧
        a.seq ≤ (df.schema.filter (fun c => strStartsWith c "icd9_dgns_cd_")).length) ∧
      (∀ (i : Nat)
        (h : i < (df.schema.filter (fun c => strStartsWith c "icd9_dgns_cd_")).length),
        out.filter (fun a => a.seq == i + 1) =
          df.rows.filterMap
            (emitDiag
              ((df.schema.filter (fun c => strStartsWith c "icd9_dgns_cd_")).get ⟨i, h⟩)
              (i + 1)))) ∧
    diagnosisNormalized diagTestDF =
      some [⟨some (.str "P1"), some (.str "C7"), none, .str "250.00", 1⟩] := by
  refine ⟨?_, ?_, by decide⟩
  · intro df hnil
    unfold diagnosisNormalized
    rw [hnil]
  · intro df out hout
    have hrep : ∃ dcs, df.schema.filter (fun c => strStartsWith c "icd9_dgns_cd_") = dcs ∧
        dcs ≠ [] ∧ out = unpivotFrom df.rows 1 dcs := by
      cases hd : df.schema.filter (fun c => strStartsWith c "icd9_dgns_cd_") with
      | nil =>
          unfold diagnosisNormalized at hout
          rw [hd] at hout
          simp at hout
      | cons c cs =>
          refine ⟨c :: cs, rfl, by simp, ?_⟩
          unfold diagnosisNormalized at hout
          rw [hd] at hout
          exact (Option.some.inj hout).symm
    rcases hrep with ⟨dcs, hd, hne, hout2⟩
    subst hd
    constructor
    · intro a ha
      rw [hout2] at ha
      have hb := unpivotFrom_seq_bounds df.rows _ 1 a ha
      omega
    · intro i h
      rw [hout2]
      have e : i + 1 = 1 + i := by omega
      rw [e]
      exact unpivotFrom_filter df.rows _ 1 i h

/-- Witness for C2: the per-slot characterization applied at the
concrete one-row inpatient frame, slot 1. -/
theorem diagnosis_unpivot_correct_witness :
    ([(⟨some (.str "P1"), some (.str "C7"), none, .str "250.00", 1⟩ : Assign)].filter
        (fun a => a.seq == 1)) =
      diagTestDF.rows.filterMap (emitDiag "icd9_dgns_cd_1" 1) :=
  (diagnosis_unpivot_correct.2.1 diagTestDF
    [⟨some (.str "P1"), some (.str "C7"), none, .str "250.00", 1⟩] (by decide)).2 0
    (by decide)

theorem foldl_union_rows :
    ∀ (rest : List DF) (d : DF),
      (rest.foldl unionDF d).rows = d.rows ++ (rest.map DF.rows).flatten := by
  intro rest
  induction rest with
  | nil => intro d; simp
  | cons x xs ih => intro d; simp [ih, unionDF]

theorem unifyStage_rows (dfs : List DF) (u : DF) (h : unifyStage dfs = some u) :
    u.rows = (dfs.map DF.rows).flatten.map
      (fun r => setVal r "is_high_cost" (highCostExpr r)) := by
  cases dfs with
  | nil => exact Option.noConfusion h
  | cons d rest =>
      simp only [unifyStage] at h
      split at h
      · injection h with h2
        subst h2
        simp [withColumn, foldl_union_rows]
      · exact Option.noConfusion h

theorem claimsUnified_rows (i o c : Option DF) (u : DF)
    (h : claimsUnified i o c = some u) :
    u.rows = (projRowsOpt i ++ projRowsOpt o ++ projRowsOpt c).map
      (fun r => setVal r "is_high_cost" (highCostExpr r)) := by
  unfold claimsUnified at h
  rw [unifyStage_rows _ u h]
  congr 1
  rcases i with _ | di <;> rcases o with _ | b <;> rcases c with _ | e <;>
    simp [projRowsOpt]

theorem unified_row_shape (i o c : Option DF) (u : DF)
    (h : claimsUnified i o c = some u) (r : Row) (hr : r ∈ u.rows) :
    ∃ r0, getVal r "is_high_cost" = highCostExpr r0 ∧
      getVal r "payment_amount" = getVal r0 "payment_amount" := by
  rw [claimsUnified_rows i o c u h] at hr
  rcases List.mem_map.1 hr with ⟨r0, _, rfl⟩
  exact ⟨r0, getVal_setVal_self _ _ _, getVal_setVal_ne _ _ _ _ (by decide)⟩

theorem highCostExpr_spec (r0 : Row) :
    (highCostExpr r0 = some (.bool true) ↔
      ∃ q : ℚ, getVal r0 "payment_amount" = some (.num q) ∧ 10000 < q) ∧
    (highCostExpr r0 = some (.bool true) ∨
      highCostExpr r0 = some (.bool false)) ∧
    (getVal r0 "payment_amount" = none →
      highCostExpr r0 = some (.bool false)) := by
  unfold highCostExpr sparkWhen
  cases hp : getVal r0 "payment_amount" with
  | none => simp [gtNum]
  | some v =>
      cases v with
      | str s => simp [gtNum]
      | int n => simp [gtNum]
      | num q =>
          by_cases hq : (10000 : ℚ) < q
          · simp [gtNum, decide_eq_true hq, hq]
          · simp [gtNum, decide_eq_false hq, hq]
      | date d2 => simp [gtNum]
      | bool b2 => simp [gtNum]

/-- Claim C3: the Claims Unifier projects each available cleansed claim
type onto the fixed common column list (keeping only common columns
present in that type's schema) and concatenates the available projections
without deduplication in type order inpatient, outpatient, carrier: the
unified rows are exactly the projections' rows in that order, each
extended with the `is_high_cost` column. -/
theorem claims_unifier_concat :
    (∀ (i o c : Option DF) (u : DF),
      claimsUnified i o c = some u →
      u.rows = (projRowsOpt i ++ projRowsOpt o ++ projRowsOpt c).map
        (fun r => setVal r "is_high_cost" (highCostExpr r))) ∧
    (claimsUnified (some uniInDF) (some uniOutDF) (some uniCarDF)).isSome
      = true :=
  ⟨claimsUnified_rows, by decide⟩

/-- Witness for C3: the concatenation equation applied at three concrete
one-row frames (the inpatient one carrying an extra type-specific
column that the projection drops). -/
theorem claims_unifier_concat_witness :
    ((claimsUnified (some uniInDF) (some uniOutDF) (some uniCarDF)).getD
        ⟨[], []⟩).rows =
      (projRowsOpt (some uniInDF) ++ projRowsOpt (some uniOutDF) ++
        projRowsOpt (some uniCarDF)).map
        (fun r => setVal r "is_high_cost" (highCostExpr r)) :=
  claims_unifier_concat.1 (some uniInDF) (some uniOutDF) (some uniCarDF) _
    (by decide)

/-- Claim C7: for every row of the unified claims output, `is_high_cost`
is `true` iff `payment_amount` > 10000 with strict greater-than; a
payment of exactly 10000 yields `false`, payment 15000 yields `true`,
payment 500 yields `false`. -/
theorem is_high_cost_strict :
    (∀ (i o c : Option DF) (u : DF),
      claimsUnified i o c = some u →
      ∀ r ∈ u.rows,
        (getVal r "is_high_cost" = some (.bool true) ∨
          getVal r "is_high_cost" = some (.bool false)) ∧
        (getVal r "is_high_cost" = some (.bool true) ↔
          ∃ q : ℚ, getVal r "payment_amount" = some (.num q) ∧ 10000 < q)) ∧
    highCostExpr [("payment_amount", some (.num 15000))] = some (.bool true) ∧
    highCostExpr [("payment_amount", some (.num 500))] = some (.bool false) ∧
    highCostExpr [("payment_amount", some (.num 10000))] = some (.bool false) := by
  refine ⟨?_, by decide, by decide, by decide⟩
  intro i o c u h r hr
  rcases unified_row_shape i o c u h r hr with ⟨r0, h1, h2⟩
  rw [h1, h2]
  have hs := highCostExpr_spec r0
  exact ⟨hs.2.1, hs.1⟩

/-- Witness for C7: the strict-threshold characterization applied at the
concrete unified row with payment 15000. -/
theorem is_high_cost_strict_witness :
    (getVal c7SampleRow "is_high_cost" = some (.bool true) ∨
      getVal c7SampleRow "is_high_cost" = some (.bool false)) ∧
    (getVal c7SampleRow "is_high_cost" = some (.bool true) ↔
      ∃ q : ℚ, getVal c7SampleRow "payment_amount" = some (.num q) ∧
        10000 < q) :=
  is_high_cost_strict.1 (some uniInDF) (some uniOutDF) none
    ((claimsUnified (some uniInDF) (some uniOutDF) none).getD ⟨[], []⟩)
    (by decide) c7SampleRow (by decide)

/-- Claim C10: for every unified claims row whose `payment_amount` is
null, `is_high_cost` is `false` — never null and never an error — so
`is_high_cost` is a total two-valued boolean over the whole unified
output; an unparsable payment string casts to null upstream. -/
theorem is_high_cost_total_on_null :
    (∀ (i o c : Option DF) (u : DF),
      claimsUnified i o c = some u →
      ∀ r ∈ u.rows,
        (getVal r "payment_amount" = none →
          getVal r "is_high_cost" = some (.bool false)) ∧
        (getVal r "is_high_cost" = some (.bool true) ∨
          getVal r "is_high_cost" = some (.bool false))) ∧
    castDouble (some (.str "not_a_number")) = none ∧
    highCostExpr [("payment_amount", none)] = some (.bool false) := by
  refine ⟨?_, by decide, by decide⟩
  intro i o c u h r hr
  rcases unified_row_shape i o c u h r hr with ⟨r0, h1, h2⟩
  rw [h1, h2]
  have hs := highCostExpr_spec r0
  exact ⟨hs.2.2, hs.2.1⟩

/-- Witness for C10: the null-payment behaviour applied at the concrete
carrier row with a null payment. -/
theorem is_high_cost_total_on_null_witness :
    (getVal c10SampleRow "payment_amount" = none →
      getVal c10SampleRow "is_high_cost" = some (.bool false)) ∧
    (getVal c10SampleRow "is_high_cost" = some (.bool true) ∨
      getVal c10SampleRow "is_high_cost" = some (.bool false)) :=
  is_high_cost_total_on_null.1 none none (some uniCarDF)
    ((claimsUnified none none (some uniCarDF)).getD ⟨[], []⟩) (by decide)
    c10SampleRow (by decide)

/-- Claim C5: branches are isolated — an unavailable source (or a branch
whose body raises, caught at the branch boundary) yields an absent output
for that branch only: with the carrier source unavailable the other
branch outputs are unchanged and the unified claims still hold exactly
the inpatient and outpatient projections; with no claim type available
the unifier produces its empty (absent, warned) result and the run still
completes. -/
theorem branch_isolation :
    (∀ inp : SilverInputs,
      (runSilver { inp with carrier := none }).beneficiaryOut =
        (runSilver inp).beneficiaryOut ∧
      (runSilver { inp with carrier := none }).prescriptionsOut =
        (runSilver inp).prescriptionsOut ∧
      (runSilver { inp with carrier := none }).diagnosesOut =
        (runSilver inp).diagnosesOut) ∧
    (∀ (inp : SilverInputs) (u : DF),
      inp.carrier = none →
      (runSilver inp).claimsOut = some u →
      u.rows = (projRowsOpt (cleanClaimsData inp.inpatient "inpatient") ++
        projRowsOpt (cleanClaimsData inp.outpatient "outpatient")).map
          (fun r => setVal r "is_high_cost" (highCostExpr r))) ∧
    (∀ (b : Option (List Snap)) (p : Option DF),
      (runSilver ⟨b, none, none, none, p⟩).claimsOut = none) := by
  refine ⟨fun inp => ⟨rfl, rfl, rfl⟩, ?_, fun b p => rfl⟩
  intro inp u hcar h
  have h2 : claimsUnified (cleanClaimsData inp.inpatient "inpatient")
      (cleanClaimsData inp.outpatient "outpatient")
      (cleanClaimsData inp.carrier "carrier") = some u := h
  rw [hcar] at h2
  have h3 := claimsUnified_rows _ _ _ u h2
  simpa [projRowsOpt, cleanClaimsData] using h3

/-- Witness for C5: the carrier-unavailable part applied at a concrete
run with one inpatient and one outpatient raw claim and no carrier
source. -/
theorem branch_isolation_witness :
    ((runSilver c5Inputs).claimsOut.getD ⟨[], []⟩).rows =
      (projRowsOpt (cleanClaimsData c5Inputs.inpatient "inpatient") ++
        projRowsOpt (cleanClaimsData c5Inputs.outpatient "outpatient")).map
        (fun r => setVal r "is_high_cost" (highCostExpr r)) :=
  branch_isolation.2.1 c5Inputs _ rfl (by decide)

/-- Counterexample to C4 as stated: with the patient-pay source column
absent from the schema, the prescription transform does not substitute a
default — its column reference raises, the branch boundary catches, and
the branch produces no output at all (so no row with patient_pay = 0.0
exists). -/
theorem prescription_patient_pay_cex :
    prescriptionBranch (some prescMissingDF) = none := by decide

/-- Claim C4 (amended): when every referenced source column is present,
the prescription branch succeeds and a null patient-pay value yields
`patient_pay` = 0.0 via the conditional null check; the presence-checked
optional columns (the claims payment column, the chronic flags) default
without error when absent; but an absent patient-pay column makes the
whole prescription branch produce an absent output (the raised error is
caught; the run continues). -/
theorem prescription_patient_pay_amended :
    (∀ df : DF,
      prescSourceCols.all (fun c => df.schema.contains c) = true →
      prescriptionBranch (some df) =
        some ⟨addCols df.schema prescNewCols, df.rows.map prescRow⟩) ∧
    (∀ r : Row, getVal r "ptnt_pay_amt" = none →
      getVal (prescRow r) "patient_pay" = some (.num 0)) ∧
    (∀ (ct : String) (df u : DF),
      cleanClaimsData (some df) ct = some u →
      df.schema.contains "clm_pmt_amt" = false →
      ∀ r ∈ u.rows, getVal r "payment_amount" = some (.num 0)) ∧
    getVal (prescRow [("ptnt_pay_amt", none)]) "patient_pay" =
      some (.num 0) := by
  refine ⟨?_, ?_, ?_, by decide⟩
  · intro df h
    show (prescriptionClean df).toOption = _
    unfold prescriptionClean
    have hf : prescSourceCols.find? (fun c => !df.schema.contains c) = none := by
      apply List.find?_eq_none.mpr
      intro c hc
      rw [List.all_eq_true] at h
      simp
      simpa using h c hc
    rw [hf]
    rfl
  · intro r hr
    rw [prescRow_patient_pay, hr]
    rfl
  · intro ct df u h hmiss r hr
    simp only [cleanClaimsData] at h
    split at h
    · simp only [hmiss, Bool.false_eq_true, if_false] at h
      injection h with h2
      subst h2
      rcases List.mem_map.1 hr with ⟨r0, _, rfl⟩
      exact getVal_setVal_self _ _ _
    · exact Option.noConfusion h

/-- Witness for C4 (amended): the success part applied at the concrete
prescription frame whose patient-pay value is null. -/
theorem prescription_patient_pay_amended_witness :
    prescriptionBranch (some prescFullDF) =
      some ⟨addCols prescFullDF.schema prescNewCols,
        prescFullDF.rows.map prescRow⟩ :=
  prescription_patient_pay_amended.1 prescFullDF (by decide)

end SilverETL
